import Mathlib

/-!
Shallow embedding of the NetworkMonitor discovery/registry/access-control
engine (`src/networkmonitor/monitor.py`).  Python dictionaries are modelled
as association lists (insertion-ordered, unique keys, mutation in place),
timestamps as integer seconds, speeds as rationals, subprocess and network
side effects as explicit parameters (`Except`-valued outcomes for calls that
may raise, functions for lookups), and exceptions as `Except` values that the
embedded control flow catches exactly where the Python `try/except` does.
-/

namespace NetworkMonitor

/-! ### Python string primitives -/

/-- Python prefix test on character lists (`s.startswith(p)` shape). -/
def leadsChars : List Char → List Char → Bool
  | [], _ => true
  | _ :: _, [] => false
  | a :: p, b :: s => a == b && leadsChars p s

/-- Occurrence of `sub` as a contiguous substring of the second argument,
the semantics of Python's `sub in s`. -/
def containsChars (sub : List Char) : List Char → Bool
  | [] => leadsChars sub []
  | c :: rest => leadsChars sub (c :: rest) || containsChars sub rest

/-- Python `needle in hay` on strings. -/
def pyIn (needle hay : String) : Bool :=
  containsChars needle.data hay.data

/-- Split a character list at every character satisfying `p`, keeping empty
pieces (the behaviour of `str.split(sep)` for a one-character separator). -/
def splitCharsBy (p : Char → Bool) : List Char → List (List Char)
  | [] => [[]]
  | c :: rest =>
      let r := splitCharsBy p rest
      if p c then [] :: r
      else
        match r with
        | [] => [[c]]
        | h :: t => (c :: h) :: t

/-- Python `s.split()` — split on whitespace runs, dropping empty pieces. -/
def pySplitWS (s : String) : List String :=
  ((splitCharsBy (fun c => c == ' ' || c == '\t' || c == '\r') s.data).filter
    (fun w => w ≠ [])).map String.mk

/-- Uppercase each character (ASCII, which covers every use here). -/
def toUpperChars (l : List Char) : List Char := l.map Char.toUpper

/-- Lowercase each character (ASCII, which covers every use here). -/
def toLowerChars (l : List Char) : List Char := l.map Char.toLower

/-- Decimal value of a digit string. -/
def digitsVal (s : List Char) : Nat :=
  s.foldl (fun acc c => acc * 10 + (c.toNat - '0'.toNat)) 0

/-- One octet of the IPv4 regular expression
`25[0-5]|2[0-4][0-9]|[01]?[0-9][0-9]?`: a run of one to three decimal
digits whose value is at most 255 (this is exactly the language of that
alternation). -/
def octetOk (s : List Char) : Bool :=
  s.all (fun c => '0' ≤ c && c ≤ '9') && 1 ≤ s.length && s.length ≤ 3 &&
    digitsVal s ≤ 255

/-- Whole-string match of the dotted-quad body of the pattern in
`NetworkController.validate_ip`. -/
def ipv4Core (s : String) : Bool :=
  match splitCharsBy (fun c => c == '.') s.data with
  | [a, b, c, d] => octetOk a && octetOk b && octetOk c && octetOk d
  | _ => false

/-- `NetworkController.validate_ip`: empty strings are rejected, then the
anchored regex is applied with `re.match`; since the pattern ends in `$`,
a single trailing newline is also accepted by Python's `re`. -/
def validate_ip (ip : String) : Bool :=
  if ip = "" then false
  else
    ipv4Core ip ||
      (ip.data.getLast? == some '\n' && ipv4Core (String.mk ip.data.dropLast))

/-! ### Device records and the registry -/

/-- The `Device` dataclass of `monitor.py`. -/
structure Device where
  ip : String
  mac : String
  hostname : Option String
  vendor : Option String
  device_type : Option String
  signal_strength : Option Int
  connection_type : String
  status : String
  speed_limit : Option ℚ
  current_speed : ℚ
  last_seen : Int
  is_protected : Bool
  is_blocked : Bool
  attack_status : String
deriving Repr, DecidableEq

/-- A fresh `Device(ip=…, mac=…, hostname=…, vendor=…, device_type=…,
last_seen=…)` with the dataclass defaults for the remaining fields. -/
def mkDevice (ip mac : String) (hostname vendor device_type : Option String)
    (last_seen : Int) : Device :=
  { ip := ip, mac := mac, hostname := hostname, vendor := vendor,
    device_type := device_type, signal_strength := none,
    connection_type := "WiFi", status := "active", speed_limit := none,
    current_speed := 0, last_seen := last_seen, is_protected := false,
    is_blocked := false, attack_status := "none" }

/-- `self.devices`: an insertion-ordered dictionary from IP to `Device`. -/
abbrev Registry := List (String × Device)

/-- Dictionary lookup `self.devices.get(ip)`. -/
def findDevice (reg : Registry) (ip : String) : Option Device :=
  match reg.find? (fun p => p.1 == ip) with
  | some p => some p.2
  | none => none

/-- Dictionary assignment `self.devices[ip] = d` (replace in place when the
key is present, append otherwise). -/
def setDevice : Registry → String → Device → Registry
  | [], ip, d => [(ip, d)]
  | p :: rest, ip, d =>
      if p.1 == ip then (ip, d) :: rest else p :: setDevice rest ip d

/-! ### Device-type inference (`NetworkController.guess_device_type`) -/

/-- The fixed keyword table of `guess_device_type`, in source order. -/
def patterns : List (String × List String) :=
  [ ("smartphone", ["iphone", "android", "phone", "samsung", "huawei", "xiaomi"]),
    ("laptop", ["laptop", "macbook", "notebook", "dell", "lenovo", "hp", "asus"]),
    ("tablet", ["ipad", "tablet", "kindle"]),
    ("smart tv", ["tv", "roku", "firestick", "chromecast", "samsung tv", "lg tv"]),
    ("gaming", ["playstation", "xbox", "nintendo", "ps4", "ps5"]),
    ("iot", ["camera", "thermostat", "doorbell", "nest", "ring", "echo", "alexa"]),
    ("desktop", ["desktop", "pc", "imac", "workstation"]) ]

/-- Python truthiness of an optional string (`not hostname`). -/
def pyFalsy : Option String → Bool
  | none => true
  | some s => s == ""

/-- Python `(x or "").lower()`. -/
def orEmptyLower : Option String → String
  | none => ""
  | some s => String.mk (toLowerChars s.data)

/-- Capitalize the first character of a word. -/
def capWord : List Char → List Char
  | [] => []
  | c :: rest => c.toUpper :: rest

/-- Join character-list words with single spaces. -/
def joinSpace : List (List Char) → List Char
  | [] => []
  | [w] => w
  | w :: ws => w ++ ' ' :: joinSpace ws

/-- Python `str.title()` restricted to space-separated lowercase words,
which covers every category name in `patterns`. -/
def pyTitle (s : String) : String :=
  String.mk (joinSpace ((splitCharsBy (fun c => c == ' ') s.data).map capWord))

/-- Whether one keyword list matches the lowered hostname/vendor pair. -/
def keywordHit (h v : String) (kws : List String) : Bool :=
  kws.any (fun k => pyIn k h || pyIn k v)

/-- `NetworkController.guess_device_type`. -/
def guess_device_type (hostname vendor : Option String) : String :=
  if pyFalsy hostname && pyFalsy vendor then "Unknown"
  else
    match patterns.find? (fun p =>
      keywordHit (orEmptyLower hostname) (orEmptyLower vendor) p.2) with
    | some p => pyTitle p.1
    | none => "Unknown"

/-! ### Vendor resolution (`NetworkController._get_mac_vendor`) -/

/-- The hard-coded `oui_database` of common vendor OUI prefixes. -/
def oui_database : List (String × String) :=
  [ ("AABBCC", "Apple, Inc."),
    ("00155D", "Microsoft Corporation"),
    ("001A2B", "Apple, Inc."),
    ("3C5AB4", "Google, Inc."),
    ("B827EB", "Raspberry Pi Foundation"),
    ("DC44B6", "TP-Link Technologies"),
    ("E0D55E", "LITEON Technology"),
    ("001E8C", "ASUSTek Computer"),
    ("5C497D", "Huawei Technologies"),
    ("8C8590", "Apple, Inc."),
    ("F0B429", "Samsung Electronics"),
    ("00248C", "Cisco Systems"),
    ("0024D4", "Dell Inc."),
    ("00264D", "Dell Inc."),
    ("EC1A59", "Hewlett Packard"),
    ("F4F951", "Xiaomi Communications"),
    ("98FAE3", "Intel Corporate"),
    ("7CE32E", "Sonos, Inc."),
    ("001377", "Samsung Electronics"),
    ("0017FA", "Microsoft Corporation") ]

/-- Association-list lookup, the shape of `dict.get(k)` /
`cache[k]`-after-`in` on string-keyed dictionaries. -/
def lookupAssoc (l : List (String × String)) (k : String) : Option String :=
  match l.find? (fun p => p.1 == k) with
  | some p => some p.2
  | none => none

/-- `mac.replace(':', '').replace('-', '')[:6].upper()`. -/
def ouiOf (mac : String) : String :=
  String.mk (toUpperChars
    (((mac.data.filter (fun c => c ≠ ':')).filter (fun c => c ≠ '-')).take 6))

/-- Mutable state of the vendor resolver: the `mac_vendor_cache` dictionary
plus an instrumentation counter of remote `api.macvendors.com` requests. -/
structure VendorState where
  cache : List (String × String)
  remote_calls : Nat
deriving Repr, DecidableEq

/-- `NetworkController._get_mac_vendor`.  `remote` is the outcome of the
`requests.get` lookup for a given OUI (`none` models a non-200 status or a
raised/timeout exception, which the code swallows). -/
def get_mac_vendor (remote : String → Option String) (s : VendorState)
    (mac : String) : Option String × VendorState :=
  match lookupAssoc s.cache mac with
  | some v => (some v, s)
  | none =>
    let oui := ouiOf mac
    match lookupAssoc oui_database oui with
    | some v => (some v, { s with cache := s.cache ++ [(mac, v)] })
    | none =>
      let s1 : VendorState := { s with remote_calls := s.remote_calls + 1 }
      match remote oui with
      | some v => (some v, { s1 with cache := s1.cache ++ [(mac, v)] })
      | none => (none, s1)

/-! ### Protect / cut state machine
(`protect_device`, `unprotect_device`, `cut_device`, `stop_cut`)

Each operation is modelled by its synchronous effect on the shared state:
the device dictionary, the `protected_devices` list and the key set of the
`attack_threads` dictionary.  The background loops spawned by `protect` and
`cut` only send packets while the corresponding flag keeps its value, so
the reachable flag states are exactly those produced by these synchronous
transitions. -/

/-- Shared mutable state of `NetworkController` touched by the
protect/cut operations. -/
structure EngineState where
  devices : Registry
  protected_devices : List String
  attack_threads : List String
deriving Repr, DecidableEq

/-- `NetworkController.protect_device`. -/
def protect_device (ip : String) (s : EngineState) : Bool × EngineState :=
  match findDevice s.devices ip with
  | some d =>
      (true,
        { s with
          devices := setDevice s.devices ip { d with is_protected := true },
          protected_devices := s.protected_devices ++ [ip] })
  | none => (false, s)

/-- `NetworkController.unprotect_device`. -/
def unprotect_device (ip : String) (s : EngineState) : Bool × EngineState :=
  match findDevice s.devices ip with
  | some d =>
      (true,
        { s with
          devices := setDevice s.devices ip { d with is_protected := false },
          protected_devices :=
            if s.protected_devices.contains ip
            then s.protected_devices.erase ip else s.protected_devices })
  | none => (false, s)

/-- `NetworkController.stop_cut`: reset `attack_status`, join and drop the
attack thread, then (best effort) send corrective announcements. -/
def stop_cut (ip : String) (s : EngineState) : Bool × EngineState :=
  match findDevice s.devices ip with
  | some d =>
      let s1 : EngineState :=
        { s with devices := setDevice s.devices ip { d with attack_status := "none" } }
      (true,
        if s1.attack_threads.contains ip
        then { s1 with attack_threads := s1.attack_threads.erase ip }
        else s1)
  | none => (false, s)

/-- `NetworkController.cut_device`: rejected when the device is missing or
protected; otherwise marks the device `cutting`, stops a pre-existing
attack thread for the same IP (which resets the flag to `none`), and
registers the new thread. -/
def cut_device (ip : String) (s : EngineState) : Bool × EngineState :=
  match findDevice s.devices ip with
  | none => (false, s)
  | some d =>
    if d.is_protected then (false, s)
    else
      let s1 : EngineState :=
        { s with devices := setDevice s.devices ip { d with attack_status := "cutting" } }
      let s2 := if s1.attack_threads.contains ip then (stop_cut ip s1).2 else s1
      (true,
        { s2 with
          attack_threads :=
            if s2.attack_threads.contains ip then s2.attack_threads
            else s2.attack_threads ++ [ip] })

/-! ### Discovery (`get_connected_devices`, `_get_devices_from_arp_table`)

Injected parameters stand for the environment: `ifaces` is the `ip` field of
each interface returned by `get_interfaces` (which never raises — it catches
internally); `scan` is the outcome of the Scapy `srp` broadcast, as the list
of `(psrc, hwsrc)` pairs of answered replies or the raised exception;
`arpOut` is the outcome of the `arp -a` subprocess; `hostnameOf`/`vendorOf`
are the results of `_resolve_hostname` / `_get_mac_vendor`, which absorb
their own failures and return `None` on error. -/

/-- Accumulator of the per-observation loop: the mutated `self.devices`
dictionary and the `discovered` list. -/
structure ScanStep where
  reg : Registry
  discovered : List Device
deriving Repr, DecidableEq

/-- One iteration of the observation loop, shared verbatim by the active
scan and both ARP-table branches: refresh an existing device
(`last_seen = now`, `status = "active"`) or classify and insert a new one,
then append it to `discovered`. -/
def upsertObserved (hostnameOf vendorOf : String → Option String) (now : Int)
    (st : ScanStep) (ip mac : String) : ScanStep :=
  match findDevice st.reg ip with
  | some d =>
      let d' := { d with last_seen := now, status := "active" }
      ⟨setDevice st.reg ip d', st.discovered ++ [d']⟩
  | none =>
      let hostname := hostnameOf ip
      let vendor := vendorOf mac
      let d := mkDevice ip mac hostname vendor
        (some (guess_device_type hostname vendor)) now
      ⟨setDevice st.reg ip d, st.discovered ++ [d]⟩

/-- The staleness pass at the end of the active-scan branch: every registry
entry not in `discovered` whose `last_seen` is more than 120 seconds old is
marked `"inactive"`. -/
def markStale (now : Int) (disc : List Device) (reg : Registry) : Registry :=
  reg.map (fun p =>
    if disc.contains p.2 = false ∧ 120 < now - p.2.last_seen
    then (p.1, { p.2 with status := "inactive" }) else p)

/-- The target-range loop of `get_connected_devices`: the first interface IP
that is non-empty and does not start with `127.`. -/
def findLocalIp (ifaces : List (Option String)) : Option String :=
  ifaces.findSome? (fun o =>
    match o with
    | some ip =>
        if ip ≠ "" && !(leadsChars "127.".data ip.data) then some ip else none
    | none => none)

/-- Python `line.find(c)`: index of the first occurrence, `-1` if absent. -/
def pyFindChar (s : List Char) (c : Char) : Int :=
  match s with
  | [] => -1
  | a :: rest =>
      if a == c then 0
      else match pyFindChar rest c with
        | -1 => -1
        | i => i + 1

/-- Python slice `s[a:b]` for non-negative bounds. -/
def pySlice (s : String) (a b : Nat) : String :=
  String.mk ((s.data.drop a).take (b - a))

/-- One line of Windows `arp -a` output: at least three whitespace-separated
fields, a dotted first field, dash-canonicalized MAC, filtered through
`validate_ip` and the broadcast-address check. -/
def parseWinLine (line : String) : Option (String × String) :=
  match pySplitWS line with
  | p0 :: p1 :: _ :: _ =>
      if pyIn "." p0 then
        let mac := String.mk (toUpperChars
          (p1.data.map (fun c => if c == '-' then ':' else c)))
        if validate_ip p0 && mac ≠ "FF:FF:FF:FF:FF:FF" then some (p0, mac)
        else none
      else none
  | _ => none

/-- One line of Linux/macOS `arp -a` output (`hostname (ip) at mac on
iface`): the IP between the first parentheses, the first colon-bearing
17-character field as MAC, filtered through `validate_ip`. -/
def parseNixLine (line : String) : Option (String × String) :=
  if pyIn "(" line && pyIn ")" line then
    let a := (pyFindChar line.data '(' + 1).toNat
    let b := (pyFindChar line.data ')').toNat
    let ip := pySlice line a b
    match (pySplitWS line).find? (fun p => pyIn ":" p && p.data.length = 17) with
    | some m =>
        if ip ≠ "" && validate_ip ip then
          some (ip, String.mk (toUpperChars m.data))
        else none
    | none => none
  else none

/-- Split subprocess output into lines (`str.splitlines`). -/
def pyLines (text : String) : List String :=
  (splitCharsBy (fun c => c == '\n') text.data).map String.mk

/-- `NetworkController._get_devices_from_arp_table`.  On Windows a failing
`arp -a` propagates to this function's outer handler, which returns
`list(self.devices.values())`; on Linux/macOS the inner
`except Exception: pass` leaves `discovered` empty. -/
def get_devices_from_arp_table (os_type : String)
    (arpOut : Except String String)
    (hostnameOf vendorOf : String → Option String)
    (now : Int) (reg : Registry) : List Device × Registry :=
  if os_type = "Windows" then
    match arpOut with
    | .error _ => (reg.map Prod.snd, reg)
    | .ok text =>
        let st := ((pyLines text).filterMap parseWinLine).foldl
          (fun st p => upsertObserved hostnameOf vendorOf now st p.1 p.2)
          ⟨reg, []⟩
        (st.discovered, st.reg)
  else
    match arpOut with
    | .error _ => ([], reg)
    | .ok text =>
        let st := ((pyLines text).filterMap parseNixLine).foldl
          (fun st p => upsertObserved hostnameOf vendorOf now st p.1 p.2)
          ⟨reg, []⟩
        (st.discovered, st.reg)

/-- Result of one discovery pass: the returned `discovered` list, the
registry afterwards, and whether the pass read the OS ARP table. -/
structure DiscoveryResult where
  discovered : List Device
  registry : Registry
  arp_table_read : Bool
deriving Repr, DecidableEq

/-- `NetworkController.get_connected_devices`: derive a target range from
the interfaces (ARP-table fallback when none), run the active Scapy scan
(ARP-table fallback when it raises), process replies, then age stale
entries.  Only the fallback branches read the ARP table. -/
def get_connected_devices (os_type : String) (ifaces : List (Option String))
    (scan : Except String (List (String × String)))
    (arpOut : Except String String)
    (hostnameOf vendorOf : String → Option String)
    (now : Int) (reg : Registry) : DiscoveryResult :=
  match findLocalIp ifaces with
  | none =>
      let dr := get_devices_from_arp_table os_type arpOut hostnameOf vendorOf now reg
      ⟨dr.1, dr.2, true⟩
  | some _ =>
    match scan with
    | .error _ =>
        let dr := get_devices_from_arp_table os_type arpOut hostnameOf vendorOf now reg
        ⟨dr.1, dr.2, true⟩
    | .ok answered =>
        let st := answered.foldl
          (fun st p =>
            upsertObserved hostnameOf vendorOf now st p.1
              (String.mk ((toUpperChars p.2.data).map
                (fun c => if c == '-' then ':' else c))))
          ⟨reg, []⟩
        ⟨st.discovered, markStale now st.discovered st.reg, false⟩

/-! ### Bandwidth estimation (`NetworkController._update_device_speeds`) -/

/-- The per-device estimate written by `_update_device_speeds`:
`max(0, per_device_speed + (hash(ip) % 10 - 5) * 0.1)` where
`per_device_speed = total_speed_mbps / len(active_devices)` and
`total_speed_mbps = bytes_delta * 8 / (time_delta * 1_000_000)`. -/
def estimatedSpeed (hashF : String → Int) (reg : Registry) (time_delta : ℚ)
    (total_bytes last_bytes : Int) (ip : String) : ℚ :=
  max 0 ((((total_bytes - last_bytes : Int) : ℚ) * 8 / (time_delta * 1000000)) /
      ((((reg.map Prod.snd).filter (fun d => d.status == "active")).length : Nat) : ℚ) +
    (((hashF ip).emod 10 - 5 : ℤ) : ℚ) * (1 / 10))

/-- `NetworkController._update_device_speeds`.  `hashF` models Python's
`hash` on the device IP; counters and the time delta are the sampled
values. -/
def update_device_speeds (hashF : String → Int) (reg : Registry)
    (time_delta : ℚ) (total_bytes last_bytes : Int) : Registry :=
  if 0 < time_delta then
    if 0 ≤ total_bytes - last_bytes then
      if ((reg.map Prod.snd).filter (fun d => d.status == "active")).length ≠ 0 then
        reg.map (fun p =>
          if p.2.status == "active" then
            (p.1, { p.2 with current_speed :=
                      estimatedSpeed hashF reg time_delta total_bytes last_bytes p.2.ip })
          else p)
      else reg
    else reg
  else reg

/-! ### Control operations (`block_device`, `unblock_device`,
`limit_device_speed`)

Modelled on the generic Linux path (no platform monitor attached): blocking
appends an `iptables -A INPUT -s <ip> -j DROP` rule (duplicates allowed);
unblocking runs `iptables -D`, which deletes the first matching rule and
raises (caught, returning `False`) when none exists.  `fw_rules` is the OS
rule list (one entry per appended rule) and `cmd_log` records every
subprocess invocation. -/

/-- Device dictionary plus OS-level firewall state and an audit log of
invoked OS commands. -/
structure NetState where
  devices : Registry
  fw_rules : List String
  cmd_log : List String
deriving Repr, DecidableEq

/-- `NetworkController.block_device` (generic Linux path): validate,
append one `iptables -A` DROP rule (duplicates allowed), mark the record
blocked if present, return `True`. -/
def block_device (ip : String) (s : NetState) : Bool × NetState :=
  if validate_ip ip = false then (false, s)
  else
    match findDevice s.devices ip with
    | some d =>
        (true, ⟨setDevice s.devices ip { d with is_blocked := true },
          s.fw_rules ++ [ip],
          s.cmd_log ++ ["iptables -A INPUT -s " ++ ip ++ " -j DROP"]⟩)
    | none =>
        (true, ⟨s.devices, s.fw_rules ++ [ip],
          s.cmd_log ++ ["iptables -A INPUT -s " ++ ip ++ " -j DROP"]⟩)

/-- `NetworkController.unblock_device` (generic Linux path): validate, run
`iptables -D`, which deletes the first matching rule — or raises when no
rule matches, caught and reported as `False` with no record change. -/
def unblock_device (ip : String) (s : NetState) : Bool × NetState :=
  if validate_ip ip = false then (false, s)
  else if s.fw_rules.contains ip then
    match findDevice s.devices ip with
    | some d =>
        (true, ⟨setDevice s.devices ip { d with is_blocked := false },
          s.fw_rules.erase ip,
          s.cmd_log ++ ["iptables -D INPUT -s " ++ ip ++ " -j DROP"]⟩)
    | none =>
        (true, ⟨s.devices, s.fw_rules.erase ip,
          s.cmd_log ++ ["iptables -D INPUT -s " ++ ip ++ " -j DROP"]⟩)
  else
    (false, ⟨s.devices, s.fw_rules,
      s.cmd_log ++ ["iptables -D INPUT -s " ++ ip ++ " -j DROP"]⟩)

/-- `NetworkController.limit_device_speed`: IP validation, numeric-range
validation of the limit (`none` models a `float()` conversion failure),
then (generic path, no platform monitor) recording the limit on the device
record.  No OS command is involved on this path. -/
def limit_device_speed (ip : String) (speed_limit : Option ℚ) (s : NetState) :
    Bool × NetState :=
  if validate_ip ip = false then (false, s)
  else
    match speed_limit with
    | none => (false, s)
    | some q =>
        if q < 0 ∨ 10000 < q then (false, s)
        else
          match findDevice s.devices ip with
          | some d =>
              (true, { s with devices := setDevice s.devices ip { d with speed_limit := some q } })
          | none => (true, s)

/-! ### Concrete example states used by witnesses and counterexamples -/

/-- A device first seen at time 0, as discovery creates it. -/
def exStaleDev : Device := mkDevice "10.0.0.7" "AA:BB:CC:DD:EE:01" none none none 0

/-- Engine state holding one idle, unprotected device. -/
def exEngine : EngineState :=
  ⟨[("10.0.0.9", mkDevice "10.0.0.9" "AA:BB:CC:DD:EE:02" none none none 0)], [], []⟩

/-- A device currently under protection. -/
def exProtDev : Device :=
  { mkDevice "10.0.0.9" "AA:BB:CC:DD:EE:02" none none none 0 with is_protected := true }

/-- Engine state holding one protected device. -/
def exProtEngine : EngineState := ⟨[("10.0.0.9", exProtDev)], ["10.0.0.9"], []⟩

/-- Network state with one known device, no firewall rules, no commands run. -/
def exNet : NetState :=
  ⟨[("10.0.0.5", mkDevice "10.0.0.5" "AA:BB:CC:11:22:33" none none none 0)], [], []⟩

/-- A remote vendor lookup that always succeeds. -/
def constVendor : String → Option String := fun _ => some "TestVendor"

/-- An `Except` outcome collapsed to "did it raise". -/
def exceptFailed {α : Type} : Except String α → Bool
  | .ok _ => false
  | .error _ => true

/-- The mutual-exclusion invariant of the spec on a registry: no device is
simultaneously protected and under a cutting attack. -/
def ExclusiveInvR (reg : Registry) : Prop :=
  ∀ p ∈ reg, ¬(p.2.is_protected = true ∧ p.2.attack_status = "cutting")

/-- The mutual-exclusion invariant on the engine state. -/
def ExclusiveInv (s : EngineState) : Prop := ExclusiveInvR s.devices

instance (reg : Registry) : Decidable (ExclusiveInvR reg) :=
  List.decidableBAll _ reg

instance (s : EngineState) : Decidable (ExclusiveInv s) :=
  List.decidableBAll _ s.devices

/-! ### Helper lemmas about the registry and lists -/

theorem mem_setDevice {reg : Registry} {k : String} {d : Device} {p : String × Device}
    (hp : p ∈ setDevice reg k d) : p ∈ reg ∨ p = (k, d) := by
  induction reg with
  | nil => simpa [setDevice] using hp
  | cons q rest ih =>
      by_cases hq : q.1 == k
      · simp only [setDevice, if_pos hq] at hp
        rcases List.mem_cons.1 hp with h | h
        · exact Or.inr h
        · exact Or.inl (List.mem_cons_of_mem _ h)
      · simp only [setDevice, if_neg hq] at hp
        rcases List.mem_cons.1 hp with h | h
        · exact Or.inl (h ▸ List.mem_cons_self _ _)
        · rcases ih h with h' | h'
          · exact Or.inl (List.mem_cons_of_mem _ h')
          · exact Or.inr h'

theorem mem_setDevice_of_ne {reg : Registry} {k' : String} {d' : Device}
    (hmem : (k', d') ∈ reg) (k : String) (d : Device) (hne : k ≠ k') :
    (k', d') ∈ setDevice reg k d := by
  induction reg with
  | nil => cases hmem
  | cons q rest ih =>
      by_cases hq : q.1 == k
      · simp only [setDevice, if_pos hq]
        rcases List.mem_cons.1 hmem with h | h
        · exfalso
          have h1 : q.1 = k := by simpa using hq
          have h2 : q.1 = k' := by rw [← h]
          rw [h1] at h2
          exact hne h2
        · exact List.mem_cons_of_mem _ h
      · simp only [setDevice, if_neg hq]
        rcases List.mem_cons.1 hmem with h | h
        · exact h ▸ List.mem_cons_self _ _
        · exact List.mem_cons_of_mem _ (ih h)

theorem findDevice_setDevice_self (reg : Registry) (k : String) (d : Device) :
    findDevice (setDevice reg k d) k = some d := by
  induction reg with
  | nil => simp [setDevice, findDevice, List.find?]
  | cons q rest ih =>
      by_cases hq : (q.1 == k) = true
      · simp [setDevice, hq, findDevice, List.find?]
      · simp only [setDevice, hq, if_false]
        simpa [findDevice, List.find?, hq] using ih

theorem setDevice_setDevice (reg : Registry) (k : String) (d d' : Device) :
    setDevice (setDevice reg k d) k d' = setDevice reg k d' := by
  induction reg with
  | nil => simp [setDevice]
  | cons q rest ih =>
      by_cases hq : (q.1 == k) = true
      · simp [setDevice, hq]
      · simp [setDevice, hq, ih]

theorem lookupAssoc_append_self {l : List (String × String)} {k : String}
    (h : lookupAssoc l k = none) (v : String) :
    lookupAssoc (l ++ [(k, v)]) k = some v := by
  induction l with
  | nil => simp [lookupAssoc]
  | cons q rest ih =>
      by_cases hq : q.1 == k
      · simp [lookupAssoc, List.find?, hq] at h
      · simp only [lookupAssoc, List.find?, hq] at h ⊢
        simpa [lookupAssoc] using ih h

theorem find_first_index {α : Type} (p : α → Bool) :
    ∀ (l : List α) (i : Nat) (hi : i < l.length),
      p (l.get ⟨i, hi⟩) = true →
      (∀ j (hj : j < i), p (l.get ⟨j, Nat.lt_trans hj hi⟩) = false) →
      l.find? p = some (l.get ⟨i, hi⟩)
  | [], i, hi, _, _ => absurd hi (Nat.not_lt_zero i)
  | a :: l, 0, _, h, _ => by
      have h' : p a = true := h
      simp [List.find?, h']
  | a :: l, i + 1, hi, h, hb => by
      have ha : p a = false := hb 0 (Nat.succ_pos i)
      have := find_first_index p l i (Nat.lt_of_succ_lt_succ hi) h
        (fun j hj => hb (j + 1) (Nat.succ_lt_succ hj))
      simpa [List.find?, ha] using this

theorem exclusiveInvR_setDevice {reg : Registry} (k : String) (d : Device)
    (h : ExclusiveInvR reg)
    (hd : ¬(d.is_protected = true ∧ d.attack_status = "cutting")) :
    ExclusiveInvR (setDevice reg k d) := by
  intro p hp
  rcases mem_setDevice hp with h' | h'
  · exact h p h'
  · rw [h']
    exact hd

theorem upsertObserved_mem_of_ne {st : ScanStep} {k : String} {d : Device}
    (hN vN : String → Option String) (now : Int) (ip mac : String)
    (hm : (k, d) ∈ st.reg) (hne : ip ≠ k) :
    (k, d) ∈ (upsertObserved hN vN now st ip mac).reg := by
  unfold upsertObserved
  cases hfd : findDevice st.reg ip
  · exact mem_setDevice_of_ne hm _ _ hne
  · exact mem_setDevice_of_ne hm _ _ hne

theorem upsertObserved_lastSeen {st : ScanStep}
    (hN vN : String → Option String) (now : Int) (ip mac : String)
    (hall : ∀ x ∈ st.discovered, x.last_seen = now) :
    ∀ x ∈ (upsertObserved hN vN now st ip mac).discovered, x.last_seen = now := by
  unfold upsertObserved
  cases hfd : findDevice st.reg ip <;>
    · intro x hx
      rcases List.mem_append.1 hx with h | h
      · exact hall x h
      · rcases List.mem_singleton.1 h with rfl
        rfl

theorem foldl_upsert_mem (hN vN : String → Option String) (now : Int)
    (macF : String × String → String) :
    ∀ (ans : List (String × String)) (st : ScanStep) (k : String) (d : Device),
      (k, d) ∈ st.reg → (∀ p ∈ ans, p.1 ≠ k) →
      (k, d) ∈ (ans.foldl
        (fun st p => upsertObserved hN vN now st p.1 (macF p)) st).reg
  | [], _, _, _, hm, _ => hm
  | a :: ans, st, k, d, hm, hk =>
      foldl_upsert_mem hN vN now macF ans _ k d
        (upsertObserved_mem_of_ne hN vN now a.1 (macF a) hm
          (hk a (List.mem_cons_self _ _)))
        (fun p hp => hk p (List.mem_cons_of_mem _ hp))

theorem foldl_upsert_lastSeen (hN vN : String → Option String) (now : Int)
    (macF : String × String → String) :
    ∀ (ans : List (String × String)) (st : ScanStep),
      (∀ x ∈ st.discovered, x.last_seen = now) →
      ∀ x ∈ (ans.foldl
        (fun st p => upsertObserved hN vN now st p.1 (macF p)) st).discovered,
        x.last_seen = now
  | [], _, hall => hall
  | a :: ans, st, hall =>
      foldl_upsert_lastSeen hN vN now macF ans _
        (upsertObserved_lastSeen hN vN now a.1 (macF a) hall)

theorem contains_eq_false_of_lastSeen {disc : List Device} {d : Device} {now : Int}
    (hall : ∀ x ∈ disc, x.last_seen = now) (hne : d.last_seen ≠ now) :
    disc.contains d = false := by
  rw [Bool.eq_false_iff]
  intro h
  exact hne (hall d (List.elem_iff.1 h))

theorem mem_markStale {now : Int} {disc : List Device} {reg : Registry}
    {k : String} {d : Device} (hm : (k, d) ∈ reg)
    (hc : disc.contains d = false) (hst : 120 < now - d.last_seen) :
    (k, { d with status := "inactive" }) ∈ markStale now disc reg := by
  unfold markStale
  refine List.mem_map.2 ⟨(k, d), hm, ?_⟩
  have hcond : disc.contains (k, d).2 = false ∧ 120 < now - (k, d).2.last_seen :=
    ⟨hc, hst⟩
  rw [if_pos hcond]

/-! ### Claim theorems -/

/-- C3: for every device whose `is_protected` is true, `cut_device`
returns `False` and leaves the whole engine state — device dictionary,
`protected_devices`, and `attack_threads` — unchanged. -/
theorem cut_device_rejects_protected (s : EngineState) (ip : String) (d : Device)
    (hfind : findDevice s.devices ip = some d) (hprot : d.is_protected = true) :
    cut_device ip s = (false, s) := by
  unfold cut_device
  rw [hfind]
  simp [hprot]

/-- Witness for C3 at a concrete protected device. -/
theorem cut_device_rejects_protected_witness :
    findDevice exProtEngine.devices "10.0.0.9" = some exProtDev ∧
      exProtDev.is_protected = true ∧
      cut_device "10.0.0.9" exProtEngine = (false, exProtEngine) :=
  ⟨by decide, by decide,
    cut_device_rejects_protected exProtEngine "10.0.0.9" exProtDev
      (by decide) (by decide)⟩

/-- C9: device-type inference scans the fixed keyword table in source
order — smartphone, laptop, tablet, smart tv, gaming, iot, desktop — and
returns the (title-cased) name of the first category one of whose keywords
occurs in the lowered hostname or vendor string; when no keyword matches,
or both inputs are empty or `None`, it returns `"Unknown"`. -/
theorem guess_device_type_first_match :
    (∀ (hostname vendor : Option String) (i : Nat) (hi : i < patterns.length),
      keywordHit (orEmptyLower hostname) (orEmptyLower vendor)
        (patterns.get ⟨i, hi⟩).2 = true →
      (∀ j (hj : j < i), keywordHit (orEmptyLower hostname) (orEmptyLower vendor)
        (patterns.get ⟨j, Nat.lt_trans hj hi⟩).2 = false) →
      guess_device_type hostname vendor = pyTitle (patterns.get ⟨i, hi⟩).1) ∧
    (∀ hostname vendor, (∀ p ∈ patterns,
        keywordHit (orEmptyLower hostname) (orEmptyLower vendor) p.2 = false) →
      guess_device_type hostname vendor = "Unknown") ∧
    guess_device_type none none = "Unknown" ∧
    guess_device_type (some "") (some "") = "Unknown" := by
  refine ⟨?_, ?_, by decide, by decide⟩
  · intro hostname vendor i hi hhit hbefore
    by_cases hf : (pyFalsy hostname && pyFalsy vendor) = true
    · exfalso
      have hh : orEmptyLower hostname = "" := by
        rcases hostname with _ | s
        · rfl
        · have : s = "" := by
            simpa [pyFalsy] using (Bool.and_elim_left hf)
          subst this
          rfl
      have hv : orEmptyLower vendor = "" := by
        rcases vendor with _ | s
        · rfl
        · have : s = "" := by
            simpa [pyFalsy] using (Bool.and_elim_right hf)
          subst this
          rfl
      have hnone : ∀ p ∈ patterns, keywordHit "" "" p.2 = false := by decide
      have := hnone _ (List.get_mem patterns _ hi)
      rw [hh, hv] at hhit
      rw [this] at hhit
      cases hhit
    · have hfind := find_first_index
        (fun p => keywordHit (orEmptyLower hostname) (orEmptyLower vendor) p.2)
        patterns i hi hhit hbefore
      unfold guess_device_type
      rw [if_neg hf, hfind]
  · intro hostname vendor hall
    have hfind : patterns.find?
        (fun p => keywordHit (orEmptyLower hostname) (orEmptyLower vendor) p.2) =
          none :=
      List.find?_eq_none.2 (fun p hp => by simp [hall p hp])
    by_cases hf : (pyFalsy hostname && pyFalsy vendor) = true
    · simp only [guess_device_type, if_pos hf]
    · simp only [guess_device_type, if_neg hf]
      simp only [hfind]

/-- Witness for C9: a hostname containing `iphone` maps to the first
category, `Smartphone`. -/
theorem guess_device_type_first_match_witness :
    guess_device_type (some "Johns-iPhone") none = "Smartphone" :=
  (guess_device_type_first_match.1 (some "Johns-iPhone") none 0 (by decide)
    (by decide) (fun j hj => absurd hj (Nat.not_lt_zero j))).trans (by decide)

/-- C10: non-IPv4 strings are rejected by `block_device`,
`unblock_device`, and `limit_device_speed` with `False` and with the whole
state — device records, firewall rules, and the command log — unchanged;
`limit_device_speed` likewise rejects a non-numeric limit or a limit
outside `[0, 10000]` without touching `speed_limit`. -/
theorem control_ops_reject_invalid (s : NetState) (ip : String) (lim : Option ℚ) :
    (validate_ip ip = false →
      block_device ip s = (false, s) ∧ unblock_device ip s = (false, s) ∧
        limit_device_speed ip lim s = (false, s)) ∧
    (validate_ip ip = true → lim = none →
      limit_device_speed ip lim s = (false, s)) ∧
    (∀ q, validate_ip ip = true → lim = some q → q < 0 ∨ 10000 < q →
      limit_device_speed ip lim s = (false, s)) := by
  refine ⟨fun hv => ⟨?_, ?_, ?_⟩, fun hv hl => ?_, fun q hv hl hq => ?_⟩
  · simp [block_device, hv]
  · simp [unblock_device, hv]
  · simp [limit_device_speed, hv]
  · subst hl
    simp [limit_device_speed, hv]
  · subst hl
    simp [limit_device_speed, hv, hq]

/-- Witness for C10 at a malformed IP and an out-of-range limit. -/
theorem control_ops_reject_invalid_witness :
    block_device "999.0.0.1" exNet = (false, exNet) ∧
      limit_device_speed "10.0.0.5" (some 20000) exNet = (false, exNet) :=
  ⟨((control_ops_reject_invalid exNet "999.0.0.1" none).1 (by decide)).1,
   (control_ops_reject_invalid exNet "10.0.0.5" (some 20000)).2.2 20000
     (by decide) rfl (Or.inr (by norm_num))⟩

/-- C4 counterexample: the vendor cache is keyed by the full MAC, not the
OUI, so two distinct MACs sharing an OUI that is absent from the static
table each trigger their own remote lookup (two in total, where the claim
allows at most one). -/
theorem get_mac_vendor_shared_oui_counterexample :
    ouiOf "11:22:33:00:00:01" = ouiOf "11:22:33:00:00:02" ∧
    "11:22:33:00:00:01" ≠ "11:22:33:00:00:02" ∧
    ((get_mac_vendor constVendor
        ((get_mac_vendor constVendor ⟨[], 0⟩ "11:22:33:00:00:01").2)
        "11:22:33:00:00:02").2).remote_calls = 2 := by decide

/-- C4 amended: memoization works per full MAC — when the first resolution
of a MAC found a vendor (from cache, static table, or remote), resolving
the same MAC again performs no further remote lookup and returns the same
vendor from the cache, leaving the state unchanged. -/
theorem get_mac_vendor_full_mac_memoized (remote : String → Option String)
    (s : VendorState) (mac v : String)
    (h : (get_mac_vendor remote s mac).1 = some v) :
    get_mac_vendor remote ((get_mac_vendor remote s mac).2) mac =
      (some v, (get_mac_vendor remote s mac).2) := by
  cases hc : lookupAssoc s.cache mac with
  | some w =>
      simp [get_mac_vendor, hc] at h ⊢
      exact h
  | none =>
      cases hdb : lookupAssoc oui_database (ouiOf mac) with
      | some w =>
          have h2 : lookupAssoc (s.cache ++ [(mac, w)]) mac = some w :=
            lookupAssoc_append_self hc w
          simp [get_mac_vendor, hc, hdb] at h ⊢
          subst h
          simp [h2]
      | none =>
          cases hr : remote (ouiOf mac) with
          | some w =>
              have h2 : lookupAssoc (s.cache ++ [(mac, w)]) mac = some w :=
                lookupAssoc_append_self hc w
              simp [get_mac_vendor, hc, hdb, hr] at h ⊢
              subst h
              simp [h2]
          | none =>
              simp [get_mac_vendor, hc, hdb, hr] at h

/-- Witness for the amended C4 at a static-table MAC. -/
theorem get_mac_vendor_full_mac_memoized_witness :
    (get_mac_vendor constVendor ⟨[], 0⟩ "AA:BB:CC:00:00:01").1 =
        some "Apple, Inc." ∧
      get_mac_vendor constVendor
          ((get_mac_vendor constVendor ⟨[], 0⟩ "AA:BB:CC:00:00:01").2)
          "AA:BB:CC:00:00:01" =
        (some "Apple, Inc.",
          (get_mac_vendor constVendor ⟨[], 0⟩ "AA:BB:CC:00:00:01").2) :=
  ⟨by decide,
    get_mac_vendor_full_mac_memoized constVendor ⟨[], 0⟩ "AA:BB:CC:00:00:01"
      "Apple, Inc." (by decide)⟩

theorem stop_cut_preserves_exclusive (ip : String) (s : EngineState)
    (h : ExclusiveInv s) : ExclusiveInv (stop_cut ip s).2 := by
  unfold stop_cut
  cases hfd : findDevice s.devices ip with
  | none => exact h
  | some d =>
      have key : ExclusiveInvR
          (setDevice s.devices ip { d with attack_status := "none" }) :=
        exclusiveInvR_setDevice _ _ h (by simp)
      dsimp only
      split
      · exact key
      · exact key

/-- C2 counterexample: starting from an idle, unprotected device,
`cut_device` followed by `protect_device` reaches a state where
`is_protected` and `attack_status == "cutting"` hold simultaneously —
`protect_device` never checks the attack flag. -/
theorem protect_during_cut_violates_exclusivity :
    ((findDevice
        ((protect_device "10.0.0.9" ((cut_device "10.0.0.9" exEngine).2)).2).devices
        "10.0.0.9").map (fun d => (d.is_protected, d.attack_status))) =
      some (true, "cutting") := by decide

/-- C2 amended: the exclusivity invariant is preserved by `cut_device`
(which rejects protected devices), `stop_cut`, and `unprotect_device`, and
by `protect_device` whenever the target device is not currently cutting;
it therefore holds along every call sequence that never protects a device
while its `attack_status` is `"cutting"` — but not in general, as
`protect_device` on a cutting device violates it. -/
theorem ops_preserve_exclusivity (s : EngineState) (ip : String)
    (hInv : ExclusiveInv s) :
    ExclusiveInv (cut_device ip s).2 ∧ ExclusiveInv (stop_cut ip s).2 ∧
    ExclusiveInv (unprotect_device ip s).2 ∧
    ((∀ d, findDevice s.devices ip = some d → d.attack_status ≠ "cutting") →
      ExclusiveInv (protect_device ip s).2) := by
  refine ⟨?_, stop_cut_preserves_exclusive ip s hInv, ?_, ?_⟩
  · unfold cut_device
    cases hfd : findDevice s.devices ip with
    | none => exact hInv
    | some d =>
        dsimp only
        by_cases hp : d.is_protected = true
        · rw [if_pos hp]
          exact hInv
        · rw [if_neg hp]
          have h1 : ExclusiveInv
              ⟨setDevice s.devices ip { d with attack_status := "cutting" },
                s.protected_devices, s.attack_threads⟩ :=
            exclusiveInvR_setDevice _ _ hInv (fun hx => hp hx.1)
          dsimp only
          split
          · exact stop_cut_preserves_exclusive ip _ h1
          · exact h1
  · unfold unprotect_device
    cases hfd : findDevice s.devices ip with
    | none => exact hInv
    | some d =>
        exact exclusiveInvR_setDevice _ _ hInv (by simp)
  · intro hcut
    unfold protect_device
    cases hfd : findDevice s.devices ip with
    | none => exact hInv
    | some d =>
        exact exclusiveInvR_setDevice _ _ hInv
          (fun hx => hcut d hfd hx.2)

/-- Witness for the amended C2 at a concrete idle device. -/
theorem ops_preserve_exclusivity_witness :
    ExclusiveInv exEngine ∧ ExclusiveInv (cut_device "10.0.0.9" exEngine).2 :=
  ⟨by decide, (ops_preserve_exclusivity exEngine "10.0.0.9" (by decide)).1⟩

/-- C7: after an estimator cycle, every device's `current_speed` is
non-negative, for every counter sample, time delta, and hash outcome —
updated devices get `max(0, ·)`, untouched devices keep their previous
non-negative value (`current_speed` starts at 0 and is only ever written
through this update). -/
theorem update_device_speeds_nonneg (hashF : String → Int) (reg : Registry)
    (time_delta : ℚ) (total_bytes last_bytes : Int)
    (hpre : ∀ p ∈ reg, 0 ≤ p.2.current_speed)
    (p : String × Device)
    (hp : p ∈ update_device_speeds hashF reg time_delta total_bytes last_bytes) :
    0 ≤ p.2.current_speed := by
  unfold update_device_speeds at hp
  split at hp
  · split at hp
    · split at hp
      · rcases List.mem_map.1 hp with ⟨q, hq, hpq⟩
        by_cases hs : (q.2.status == "active") = true
        · rw [if_pos hs] at hpq
          rw [← hpq]
          exact le_max_left 0 _
        · rw [if_neg hs] at hpq
          rw [← hpq]
          exact hpre q hq
      · exact hpre p hp
    · exact hpre p hp
  · exact hpre p hp

/-- Witness for C7 at a concrete one-device registry. -/
theorem update_device_speeds_nonneg_witness :
    (0 : ℚ) ≤ (mkDevice "10.0.0.5" "AA:BB:CC:11:22:33" none none none 0).current_speed :=
  update_device_speeds_nonneg (fun _ => 0) exNet.devices 0 0 0 (by decide)
    ("10.0.0.5", mkDevice "10.0.0.5" "AA:BB:CC:11:22:33" none none none 0)
    (by simp [update_device_speeds, exNet])

/-- C5 counterexample: with a usable interface and a successful active
probe, the pass returns the probe's results without reading the OS ARP
table — an entry present only in the neighbor table (`10.0.0.9`) is not
merged. -/
theorem active_probe_success_skips_passive_read :
    (get_connected_devices "Linux" [some "10.0.0.2"]
        (.ok [("10.0.0.5", "aa-bb-cc-11-22-33")])
        (.ok "? (10.0.0.9) at 11:22:33:44:55:66 [ether] on eth0")
        (fun _ => none) (fun _ => none) 1000 []).arp_table_read = false ∧
    (get_connected_devices "Linux" [some "10.0.0.2"]
        (.ok [("10.0.0.5", "aa-bb-cc-11-22-33")])
        (.ok "? (10.0.0.9) at 11:22:33:44:55:66 [ether] on eth0")
        (fun _ => none) (fun _ => none) 1000 []).discovered.map Device.ip =
      ["10.0.0.5"] := by decide

/-- C5 amended: the OS ARP table is read exactly when the pass falls back —
no usable interface address was found, or the active probe raised; a
successful active probe returns without the passive read. -/
theorem arp_table_read_iff_fallback (os : String) (ifaces : List (Option String))
    (scan : Except String (List (String × String)))
    (arpOut : Except String String)
    (hostnameOf vendorOf : String → Option String) (now : Int) (reg : Registry) :
    (get_connected_devices os ifaces scan arpOut hostnameOf vendorOf
        now reg).arp_table_read =
      ((findLocalIp ifaces).isNone || exceptFailed scan) := by
  unfold get_connected_devices
  cases findLocalIp ifaces <;> cases scan <;> rfl

/-- C6: every sub-step failure is absorbed: a raised active scan (or a
missing network range) falls back to the ARP-table read, and a raised
`arp -a` yields the existing registry contents (Windows branch, whose
parse loop is guarded only by the outer handler) or the empty partial
result (Linux/macOS branch, inner `except: pass`); in the embedding every
failable sub-step outcome is matched, so the pass always returns a value
and never propagates an exception. -/
theorem discovery_absorbs_failures (os : String) (ifaces : List (Option String))
    (scan : Except String (List (String × String)))
    (arpOut : Except String String)
    (hostnameOf vendorOf : String → Option String) (now : Int) (reg : Registry) :
    (∀ e, scan = .error e →
      (get_connected_devices os ifaces scan arpOut hostnameOf vendorOf
          now reg).discovered =
        (get_devices_from_arp_table os arpOut hostnameOf vendorOf now reg).1) ∧
    (findLocalIp ifaces = none →
      (get_connected_devices os ifaces scan arpOut hostnameOf vendorOf
          now reg).discovered =
        (get_devices_from_arp_table os arpOut hostnameOf vendorOf now reg).1) ∧
    (∀ e, arpOut = .error e →
      get_devices_from_arp_table "Windows" arpOut hostnameOf vendorOf now reg =
        (reg.map Prod.snd, reg)) ∧
    (∀ e, arpOut = .error e → os ≠ "Windows" →
      get_devices_from_arp_table os arpOut hostnameOf vendorOf now reg =
        ([], reg)) := by
  refine ⟨fun e he => ?_, fun hl => ?_, fun e he => ?_, fun e he hos => ?_⟩
  · subst he
    unfold get_connected_devices
    cases findLocalIp ifaces <;> rfl
  · unfold get_connected_devices
    rw [hl]
  · subst he
    unfold get_devices_from_arp_table
    rw [if_pos rfl]
  · subst he
    unfold get_devices_from_arp_table
    rw [if_neg hos]

/-- Witness for C6: scan and ARP command both fail on Windows; the pass
returns the existing registry contents. -/
theorem discovery_absorbs_failures_witness :
    (get_connected_devices "Windows" [some "10.0.0.2"] (.error "ScanError")
        (.error "CommandError") (fun _ => none) (fun _ => none) 1000
        [("10.0.0.7", exStaleDev)]).discovered = [exStaleDev] := by
  have h := discovery_absorbs_failures "Windows" [some "10.0.0.2"]
    (.error "ScanError") (.error "CommandError") (fun _ => none) (fun _ => none)
    1000 [("10.0.0.7", exStaleDev)]
  rw [h.1 "ScanError" rfl, h.2.2.1 "CommandError" rfl]
  rfl

/-- C1 counterexample: on the passive ARP-table fallback path no staleness
aging happens — a device last seen 880 seconds before `now`, not blocked
and not observed by the pass, keeps `status = "active"` after the pass. -/
theorem arp_fallback_skips_staleness :
    120 < (1000 : Int) - exStaleDev.last_seen ∧ exStaleDev.status ≠ "blocked" ∧
    (get_connected_devices "Linux" [some "10.0.0.2"] (.error "PermissionError")
        (.ok "") (fun _ => none) (fun _ => none) 1000
        [("10.0.0.7", exStaleDev)]).discovered = [] ∧
    (findDevice (get_connected_devices "Linux" [some "10.0.0.2"]
        (.error "PermissionError") (.ok "") (fun _ => none) (fun _ => none) 1000
        [("10.0.0.7", exStaleDev)]).registry "10.0.0.7").map Device.status =
      some "active" := by decide

/-- C1 amended: on the active-probe path the staleness rule holds — every
registry device not observed by the pass whose `last_seen` is more than
120 seconds old (and whose status is not blocked) is `"inactive"` in the
registry after the pass; the passive ARP-table fallback performs no such
aging. -/
theorem active_scan_marks_stale_inactive (os : String)
    (ifaces : List (Option String)) (answered : List (String × String))
    (arpOut : Except String String)
    (hostnameOf vendorOf : String → Option String) (now : Int) (reg : Registry)
    (k : String) (d : Device) (hmem : (k, d) ∈ reg)
    (hrange : (findLocalIp ifaces).isSome = true)
    (hunobs : ∀ p ∈ answered, p.1 ≠ k)
    (hstale : 120 < now - d.last_seen) (hnb : d.status ≠ "blocked") :
    (k, { d with status := "inactive" }) ∈
      (get_connected_devices os ifaces (.ok answered) arpOut hostnameOf vendorOf
        now reg).registry := by
  obtain ⟨ip0, hip0⟩ := Option.isSome_iff_exists.1 hrange
  unfold get_connected_devices
  rw [hip0]
  have hfold := foldl_upsert_mem hostnameOf vendorOf now
    (fun p => String.mk ((toUpperChars p.2.data).map
      (fun c => if c == '-' then ':' else c)))
    answered ⟨reg, []⟩ k d hmem hunobs
  have hlast := foldl_upsert_lastSeen hostnameOf vendorOf now
    (fun p => String.mk ((toUpperChars p.2.data).map
      (fun c => if c == '-' then ':' else c)))
    answered ⟨reg, []⟩ (fun x hx => absurd hx (List.not_mem_nil x))
  have hne : d.last_seen ≠ now := by
    intro h
    rw [h] at hstale
    omega
  exact mem_markStale hfold (contains_eq_false_of_lastSeen hlast hne) hstale

/-- Witness for the amended C1: a stale device ages to `"inactive"` during
an active scan that observes a different IP. -/
theorem active_scan_marks_stale_inactive_witness :
    ("10.0.0.7", { exStaleDev with status := "inactive" }) ∈
      (get_connected_devices "Linux" [some "10.0.0.2"]
        (.ok [("10.0.0.5", "aa-bb-cc-11-22-33")]) (.ok "")
        (fun _ => none) (fun _ => none) 1000
        [("10.0.0.7", exStaleDev)]).registry :=
  active_scan_marks_stale_inactive "Linux" [some "10.0.0.2"]
    [("10.0.0.5", "aa-bb-cc-11-22-33")] (.ok "") (fun _ => none) (fun _ => none)
    1000 [("10.0.0.7", exStaleDev)] "10.0.0.7" exStaleDev (by decide) (by decide)
    (by decide) (by decide) (by decide)

/-- C8 counterexample: blocking twice is not idempotent at the OS level —
each call appends another `iptables` DROP rule, and one `unblock_device`
removes only the first match, so a rule (and the OS-level block) survives
the unblock. -/
theorem block_device_not_os_idempotent :
    (block_device "10.0.0.5" exNet).2.fw_rules = ["10.0.0.5"] ∧
    (block_device "10.0.0.5" (block_device "10.0.0.5" exNet).2).2.fw_rules =
      ["10.0.0.5", "10.0.0.5"] ∧
    (unblock_device "10.0.0.5"
        (block_device "10.0.0.5"
          (block_device "10.0.0.5" exNet).2).2).2.fw_rules = ["10.0.0.5"] ∧
    (unblock_device "10.0.0.5"
        (block_device "10.0.0.5"
          (block_device "10.0.0.5" exNet).2).2).1 = true := by decide

/-- C8 amended: `block_device` is idempotent on the device records (the
second call rewrites the same `is_blocked := True` record) but not on OS
state (each call appends a rule); after a single block from a state with
no pre-existing rule for the IP, `unblock_device` succeeds, restores the
rule list, and clears `is_blocked`. -/
theorem block_unblock_record_level (s : NetState) (ip : String)
    (hv : validate_ip ip = true) :
    ((block_device ip (block_device ip s).2).2.devices =
        (block_device ip s).2.devices ∧
      (block_device ip (block_device ip s).2).2.fw_rules =
        s.fw_rules ++ [ip] ++ [ip]) ∧
    (ip ∉ s.fw_rules →
      (unblock_device ip (block_device ip s).2).1 = true ∧
      (unblock_device ip (block_device ip s).2).2.fw_rules = s.fw_rules ∧
      ∀ d, findDevice s.devices ip = some d →
        findDevice (unblock_device ip (block_device ip s).2).2.devices ip =
          some { d with is_blocked := false }) := by
  have hvf : ¬(validate_ip ip = false) := by simp [hv]
  have hcont : ∀ l : List String, (l ++ [ip]).contains ip = true := by
    intro l
    simp [List.elem_iff]
  have herase : ip ∉ s.fw_rules → (s.fw_rules ++ [ip]).erase ip = s.fw_rules := by
    intro hip
    rw [List.erase_append_right _ hip, List.erase_cons_head, List.append_nil]
  cases hfd : findDevice s.devices ip with
  | some d =>
      have hb1 : block_device ip s =
          (true, ⟨setDevice s.devices ip { d with is_blocked := true },
            s.fw_rules ++ [ip],
            s.cmd_log ++ ["iptables -A INPUT -s " ++ ip ++ " -j DROP"]⟩) := by
        unfold block_device
        rw [if_neg hvf, hfd]
      have hfd2 : findDevice (setDevice s.devices ip { d with is_blocked := true })
          ip = some { d with is_blocked := true } :=
        findDevice_setDevice_self _ _ _
      refine ⟨⟨?_, ?_⟩, fun hip => ⟨?_, ?_, ?_⟩⟩
      · rw [hb1]
        unfold block_device
        rw [if_neg hvf]
        dsimp only
        rw [hfd2]
        dsimp only
        rw [setDevice_setDevice]
      · rw [hb1]
        unfold block_device
        rw [if_neg hvf]
        dsimp only
        rw [hfd2]
      · rw [hb1]
        unfold unblock_device
        rw [if_neg hvf]
        dsimp only
        rw [if_pos (hcont s.fw_rules)]
        rw [hfd2]
      · rw [hb1]
        unfold unblock_device
        rw [if_neg hvf]
        dsimp only
        rw [if_pos (hcont s.fw_rules)]
        rw [hfd2]
        dsimp only
        exact herase hip
      · intro d' hd'
        have hdd : d = d' := Option.some.inj hd' 
        subst hdd
        rw [hb1]
        unfold unblock_device
        rw [if_neg hvf]
        dsimp only
        rw [if_pos (hcont s.fw_rules)]
        rw [hfd2]
        dsimp only
        rw [setDevice_setDevice]
        exact findDevice_setDevice_self _ _ _
  | none =>
      have hb1 : block_device ip s =
          (true, ⟨s.devices, s.fw_rules ++ [ip],
            s.cmd_log ++ ["iptables -A INPUT -s " ++ ip ++ " -j DROP"]⟩) := by
        unfold block_device
        rw [if_neg hvf, hfd]
      refine ⟨⟨?_, ?_⟩, fun hip => ⟨?_, ?_, ?_⟩⟩
      · rw [hb1]
        unfold block_device
        rw [if_neg hvf]
        dsimp only
        rw [hfd]
      · rw [hb1]
        unfold block_device
        rw [if_neg hvf]
        dsimp only
        rw [hfd]
      · rw [hb1]
        unfold unblock_device
        rw [if_neg hvf]
        dsimp only
        rw [if_pos (hcont s.fw_rules)]
        rw [hfd]
      · rw [hb1]
        unfold unblock_device
        rw [if_neg hvf]
        dsimp only
        rw [if_pos (hcont s.fw_rules)]
        rw [hfd]
        dsimp only
        exact herase hip
      · intro d' hd'
        exact Option.noConfusion hd' 

/-- Witness for the amended C8: block then unblock on a fresh state
succeeds and clears the block. -/
theorem block_unblock_record_level_witness :
    (unblock_device "10.0.0.5" (block_device "10.0.0.5" exNet).2).1 = true ∧
    (unblock_device "10.0.0.5" (block_device "10.0.0.5" exNet).2).2.fw_rules = [] ∧
    findDevice (unblock_device "10.0.0.5"
        (block_device "10.0.0.5" exNet).2).2.devices "10.0.0.5" =
      some { mkDevice "10.0.0.5" "AA:BB:CC:11:22:33" none none none 0 with
              is_blocked := false } := by
  have h := (block_unblock_record_level exNet "10.0.0.5" (by decide)).2
    (by decide)
  exact ⟨h.1, h.2.1, h.2.2 _ (by decide)⟩

end NetworkMonitor
